import Mathlib

/-!
Verification development for the cycle-prediction engine of this repository.

Shallow embedding conventions:
- Calendar dates are integers counting days since 1970-01-01 (the proleptic
  Gregorian calendar used by Python's `datetime.date`); `civilToDays` and
  `civilFromDays` convert between `(year, month, day)` triples and day counts.
- Python numbers flowing through the feature pipeline are modelled as `ℚ`.
  `numpy.std` takes a real square root, which is irrational; the development is
  therefore parametrised by a square-root oracle `sq : ℚ → ℚ` used only inside
  `npStd`.  No verified property depends on the value of a standard deviation.
- Raised Python exceptions are modelled as `Except PyErr`; a `try/except`
  block becomes a `match` on the embedded body's result.
- The sklearn regressor, scaler and the train/test-split-and-fit step are
  external library state; they are modelled as explicitly passed functions
  that may fail (`Except`), exactly as the service code treats them.
- Dictionaries returned to callers become structures; observability-only
  metadata fields (version strings, timestamps) are omitted.
-/

/-- Embedded Python exception values. -/
inductive PyErr where
  | valueError (msg : String)
  | other (msg : String)
deriving DecidableEq

/-- Message carried by an embedded exception (`str(e)`). -/
def PyErr.msg : PyErr → String
  | .valueError m => m
  | .other m => m

/-- Confidence tier returned by the engine. -/
inductive Confidence where
  | low
  | medium
  | high
deriving DecidableEq

/-- Numeric rank of a confidence tier, for monotonicity statements. -/
def Confidence.rank : Confidence → Nat
  | .low => 0
  | .medium => 1
  | .high => 2

/-- One logged cycle record.  `start_date` is required (days since
1970-01-01); the remaining fields are the optional keys read by the engine
(`period_length`, `cycle_length`, `symptoms`, `flow`). -/
structure CycleRecord where
  start_date : Int
  period_length : Option Int
  cycle_length : Option Int
  symptoms : List String
  flow : Option String
deriving DecidableEq

/-- A concrete record carrying only a start date. -/
def mkRec (d : Int) : CycleRecord :=
  ⟨d, none, none, [], none⟩

/-- Days since 1970-01-01 of the Gregorian date `y-m-d`
(Python `datetime.date(y, m, d)`). -/
def civilToDays (y0 m d : Int) : Int :=
  let y := y0 - (if m ≤ 2 then 1 else 0)
  let era := Int.fdiv y 400
  let yoe := y - era * 400
  let doy := Int.fdiv (153 * (m + (if 2 < m then -3 else 9)) + 2) 5 + d - 1
  let doe := yoe * 365 + Int.fdiv yoe 4 - Int.fdiv yoe 100 + doy
  era * 146097 + doe - 719468

/-- Gregorian `(year, month, day)` of a day count (inverse of
`civilToDays`). -/
def civilFromDays (z0 : Int) : Int × Int × Int :=
  let z := z0 + 719468
  let era := Int.fdiv z 146097
  let doe := z - era * 146097
  let yoe := Int.fdiv (doe - Int.fdiv doe 1460 + Int.fdiv doe 36524 - Int.fdiv doe 146096) 365
  let y := yoe + era * 400
  let doy := doe - (365 * yoe + Int.fdiv yoe 4 - Int.fdiv yoe 100)
  let mp := Int.fdiv (5 * doy + 2) 153
  let d := doy - Int.fdiv (153 * mp + 2) 5 + 1
  let m := mp + (if mp < 10 then 3 else -9)
  (y + (if m ≤ 2 then 1 else 0), m, d)

/-- Python `date.weekday()`: Monday is 0.  1970-01-01 was a Thursday. -/
def pyWeekday (d : Int) : Int :=
  Int.emod (d + 3) 7

/-- Python `round` to an integer: round half to even. -/
def pyRound (q : ℚ) : Int :=
  let f : Int := ⌊q⌋
  let r : ℚ := q - (f : ℚ)
  if r < 1 / 2 then f
  else if 1 / 2 < r then f + 1
  else if Int.emod f 2 = 0 then f else f + 1

/-- `date + timedelta(days=q)`: `timedelta` keeps only the whole-day part,
flooring (e.g. `timedelta(days=30.5).days == 30`). -/
def addDays (d : Int) (q : ℚ) : Int :=
  d + ⌊q⌋

/-- Comparison key used by every `sorted(cycles, key=lambda x: x['start_date'])`. -/
def startLe (a b : CycleRecord) : Prop :=
  a.start_date ≤ b.start_date

/-- Strict version of `startLe`, used to show sorting is deterministic when
start dates are distinct. -/
def startLt (a b : CycleRecord) : Prop :=
  a.start_date < b.start_date

instance : DecidableRel startLe := fun a b => Int.decLe a.start_date b.start_date

instance : DecidableRel startLt := fun a b => Int.decLt a.start_date b.start_date

instance : IsTotal CycleRecord startLe :=
  ⟨fun a b => Int.le_total a.start_date b.start_date⟩

instance : IsTrans CycleRecord startLe :=
  ⟨fun _ _ _ h1 h2 => le_trans h1 h2⟩

instance : IsAntisymm CycleRecord startLt :=
  ⟨fun _ _ h1 h2 => absurd h1 (not_lt.mpr (le_of_lt h2))⟩

/-- Python's stable `sorted(cycles, key=lambda x: x['start_date'])`. -/
def sortByStart (l : List CycleRecord) : List CycleRecord :=
  List.insertionSort startLe l

/-- Left fold of Python `max(..., key=f)` over a nonempty list: keeps the
current best and replaces it only on a strictly larger key. -/
def pyMaxBy (f : CycleRecord → Int) (best : CycleRecord) : List CycleRecord → CycleRecord
  | [] => best
  | x :: xs => pyMaxBy f (if f best < f x then x else best) xs

/-- Result of `ml_utils.predict_fertile_window` (dates as day counts). -/
structure FertileWindowInfo where
  ovulation_day : Int
  fertile_window_start : Int
  fertile_window_end : Int
  next_period : Int
  cycle_length : ℚ
deriving DecidableEq

/-- `backend/app/core/ml_utils.py::predict_fertile_window`.  `cycle_length or
28` is Python truthiness: `None` and `0` both become 28. -/
def predictFertileWindow (next_period_date : Int) (cycle_length : Option ℚ) : FertileWindowInfo :=
  let cl : ℚ :=
    match cycle_length with
    | some v => if v = 0 then 28 else v
    | none => 28
  let ovulation_day := next_period_date - 14
  let fertile_start := ovulation_day - 5
  let fertile_end := ovulation_day + 1
  { ovulation_day := ovulation_day
    fertile_window_start := fertile_start
    fertile_window_end := fertile_end
    next_period := next_period_date
    cycle_length := cl }

/-- The `fertile_window` object embedded in prediction results
(keys `start`, `end`, `ovulation_day`). -/
structure FertileWindow where
  start : Int
  end_ : Int
  ovulation_day : Int
deriving DecidableEq

/-- `aiml/cycle_prediction_model.py::CyclePredictor._calculate_fertile_window`. -/
def aimlCalculateFertileWindow (next_period : Int) (_cycle_length : Int) : FertileWindow :=
  let ovulation_day := next_period - 14
  let fertile_start := ovulation_day - 5
  let fertile_end := ovulation_day + 1
  ⟨fertile_start, fertile_end, ovulation_day⟩

/-- `backend/app/services/cycle_predictor.py::CyclePredictor._calculate_confidence`. -/
def calculateConfidence (n_cycles : Nat) : Confidence :=
  if 6 ≤ n_cycles then .high
  else if 3 ≤ n_cycles then .medium
  else .low

/-- `aiml/cycle_prediction_model.py::CyclePredictor._get_confidence_interval`. -/
def aimlGetConfidenceInterval (n_samples : Nat) : Confidence :=
  if 5 ≤ n_samples then .high
  else if 3 ≤ n_samples then .medium
  else .low

/-- Population variance, the quantity under the square root in `numpy.std`. -/
def npVar (xs : List ℚ) : ℚ :=
  let n : ℚ := (xs.length : ℚ)
  let mean := xs.sum / n
  (xs.map (fun x => (x - mean) ^ 2)).sum / n

/-- `numpy.std xs`, with the irrational square root taken by the oracle `sq`. -/
def npStd (sq : ℚ → ℚ) (xs : List ℚ) : ℚ :=
  sq (npVar xs)

/-- Feature names produced by `preprocess_data` (both backend copies). -/
def featureNames : List String :=
  ["prev_cycle_length", "prev_period_length", "avg_cycle_length", "avg_period_length",
   "cycle_std", "period_std"]

/-- Loop state of `preprocess_data`: the running cycle/period length lists and
the accumulated feature matrix `X` and target vector `y`. -/
structure PPState where
  cycle_lengths : List ℚ
  period_lengths : List ℚ
  X : List (List ℚ)
  y : List ℚ
deriving DecidableEq

/-- One iteration of the `for i in range(1, len(cycles))` loop of
`backend/app/services/cycle_predictor.py::CyclePredictor.preprocess_data`,
processing the consecutive pair `(cycles[i-1], cycles[i])`. -/
def ppStep (sq : ℚ → ℚ) (s : PPState) (pc : CycleRecord × CycleRecord) : PPState :=
  let cycle_length : ℚ := ((pc.2.start_date - pc.1.start_date : Int) : ℚ)
  let cycle_lengths := s.cycle_lengths ++ [cycle_length]
  let period_length : ℚ := ((pc.1.period_length.getD 5 : Int) : ℚ)
  let period_lengths := s.period_lengths ++ [period_length]
  if 2 ≤ cycle_lengths.length then
    let avg_cycle := cycle_lengths.sum / (cycle_lengths.length : ℚ)
    let avg_period := period_lengths.sum / (period_lengths.length : ℚ)
    let cycle_std := if 1 < cycle_lengths.length then npStd sq cycle_lengths else 0
    let period_std := if 1 < period_lengths.length then npStd sq period_lengths else 0
    let features : List ℚ :=
      [cycle_lengths.getLastD 0, period_lengths.getLastD 0,
       avg_cycle, avg_period, cycle_std, period_std]
    ⟨cycle_lengths, period_lengths, s.X ++ [features], s.y ++ [cycle_length]⟩
  else
    ⟨cycle_lengths, period_lengths, s.X, s.y⟩

/-- `backend/app/services/cycle_predictor.py::CyclePredictor.preprocess_data`:
raises for fewer than 2 records, sorts by `start_date`, walks consecutive
pairs accumulating rolling statistics, and raises if no feature row was
produced. -/
def preprocessData (sq : ℚ → ℚ) (cycles : List CycleRecord) :
    Except PyErr (List (List ℚ) × List ℚ × List String) :=
  if cycles.length < 2 then
    .error (.valueError "At least 2 cycles are required for prediction")
  else
    let cs := sortByStart cycles
    let st := (cs.zip cs.tail).foldl (ppStep sq) ⟨[], [], [], []⟩
    if st.X = [] then
      .error (.valueError "Insufficient data to create features")
    else
      .ok (st.X, st.y, featureNames)

/-- Prediction dictionary assembled by the backend service (the `prediction`
payload of `CyclePredictor.predict` / `_get_fallback_prediction`). -/
structure PredResult where
  status : String
  next_period_date : Int
  cycle_length : ℚ
  fertile_window : FertileWindow
  confidence : Confidence
  model_used : String
  last_cycle_date : Option Int
  message : Option String
deriving DecidableEq

/-- The zero-history branch of
`backend/app/services/cycle_predictor.py::CyclePredictor._get_fallback_prediction`:
assume a 28-day cycle from today. -/
def fallbackDefault (today : Int) : PredResult :=
  let next_period := today + 28
  let fi := predictFertileWindow next_period (some 28)
  { status := "success"
    next_period_date := next_period
    cycle_length := 28
    fertile_window := ⟨fi.fertile_window_start, fi.fertile_window_end, fi.ovulation_day⟩
    confidence := .low
    model_used := "fallback"
    last_cycle_date := none
    message := some "Using fallback prediction - not enough data for ML model" }

/-- `backend/app/services/cycle_predictor.py::CyclePredictor._get_fallback_prediction`:
average the inter-start gaps of the sorted history, clamp to [21, 45], project
the next period from the latest record.  `if not cycles` covers both `None`
and the empty list. -/
def getFallbackPrediction (today : Int) (cycles : Option (List CycleRecord)) : PredResult :=
  match cycles with
  | none => fallbackDefault today
  | some [] => fallbackDefault today
  | some (c :: cs) =>
    let sorted_cycles := sortByStart (c :: cs)
    let cycle_lengths : List ℚ :=
      (sorted_cycles.zip sorted_cycles.tail).map
        (fun p => ((p.2.start_date - p.1.start_date : Int) : ℚ))
    let avg0 : ℚ :=
      if cycle_lengths = [] then 28
      else cycle_lengths.sum / (cycle_lengths.length : ℚ)
    let avg_cycle_length := max 21 (min 45 avg0)
    let last_cycle := pyMaxBy (fun r => r.start_date) c cs
    let next_period := addDays last_cycle.start_date avg_cycle_length
    let fi := predictFertileWindow next_period (some avg_cycle_length)
    { status := "success"
      next_period_date := next_period
      cycle_length := avg_cycle_length
      fertile_window := ⟨fi.fertile_window_start, fi.fertile_window_end, fi.ovulation_day⟩
      confidence := if cycle_lengths = [] then .low else .medium
      model_used := "average"
      last_cycle_date := some last_cycle.start_date
      message :=
        if cycle_lengths = [] then
          some "Using fallback prediction - not enough data for ML model"
        else none }

/-- Outcome of the optional Gemini collaborator tried ahead of the engine:
its `status` flag and the payload returned verbatim when successful. -/
structure GeminiOutcome where
  success : Bool
  result : PredResult

/-- Body of the `try:` block of
`backend/app/services/cycle_predictor.py::CyclePredictor.predict`: attempt the
Gemini collaborator (its own failures are swallowed), then the ML strategy
when a model and scaler are loaded and at least 2 records exist, otherwise the
average fallback.  Exceptions propagate as `.error` to the enclosing handler. -/
def predictBody (today : Int) (geminiKey : Bool)
    (gemini : List CycleRecord → Except PyErr GeminiOutcome)
    (model : Option (List ℚ → Except PyErr ℚ))
    (scaler : Option (List ℚ → Except PyErr (List ℚ)))
    (sq : ℚ → ℚ) (cycles : List CycleRecord) : Except PyErr PredResult :=
  let geminiRes : Option PredResult :=
    if geminiKey then
      match gemini cycles with
      | .ok g => if g.success then some g.result else none
      | .error _ => none
    else none
  match geminiRes with
  | some r => .ok r
  | none =>
    let cycles_sorted := sortByStart cycles
    match model, scaler with
    | some m, some sc =>
      if 2 ≤ cycles_sorted.length then
        match preprocessData sq cycles_sorted with
        | .error e => .error e
        | .ok (X, _, _) =>
          match sc (X.getLastD []) with
          | .error e => .error e
          | .ok row =>
            match m row with
            | .error e => .error e
            | .ok raw =>
              let next_cycle_length : ℚ := max 21 (min 45 raw)
              let last_cycle := cycles_sorted.getLastD (mkRec 0)
              let next_period_date := addDays last_cycle.start_date next_cycle_length
              let fi := predictFertileWindow next_period_date (some next_cycle_length)
              .ok { status := "success"
                    next_period_date := next_period_date
                    cycle_length := next_cycle_length
                    fertile_window :=
                      ⟨fi.fertile_window_start, fi.fertile_window_end, fi.ovulation_day⟩
                    confidence := calculateConfidence cycles_sorted.length
                    model_used := "ml_model"
                    last_cycle_date := some last_cycle.start_date
                    message := none }
      else .ok (getFallbackPrediction today (some cycles))
    | _, _ => .ok (getFallbackPrediction today (some cycles))

/-- `backend/app/services/cycle_predictor.py::CyclePredictor.predict`: empty
history goes straight to the default fallback, and every exception raised in
the body is caught and demoted to the average fallback. -/
def predict (today : Int) (geminiKey : Bool)
    (gemini : List CycleRecord → Except PyErr GeminiOutcome)
    (model : Option (List ℚ → Except PyErr ℚ))
    (scaler : Option (List ℚ → Except PyErr (List ℚ)))
    (sq : ℚ → ℚ) (cycles : List CycleRecord) : Except PyErr PredResult :=
  if cycles = [] then
    .ok (getFallbackPrediction today none)
  else
    match predictBody today geminiKey gemini model scaler sq cycles with
    | .ok r => .ok r
    | .error _ => .ok (getFallbackPrediction today (some cycles))

/-- Result dictionary of `aiml/cycle_prediction_model.py::CyclePredictor.predict_next_cycle`
(`model_metrics` omitted; `fallback_used` is present exactly on the fallback path,
modelled as a flag). -/
structure AimlPredResult where
  next_period_date : Int
  fertile_window : FertileWindow
  predicted_cycle_length : Int
  confidence : Confidence
  fallback_used : Bool
deriving DecidableEq

/-- Feature dictionary built by `predict_next_cycle` from the latest record. -/
def aimlFeatures (cycles_sorted : List CycleRecord) (last_cycle : CycleRecord) : List ℚ :=
  let previous_cycle_length : ℚ :=
    if 2 ≤ cycles_sorted.length then
      ((last_cycle.start_date - (cycles_sorted.dropLast.getLastD (mkRec 0)).start_date : Int) : ℚ)
    else 28
  [previous_cycle_length,
   (last_cycle.symptoms.length : ℚ),
   (if last_cycle.symptoms.contains "cramps" then 1 else 0),
   (if last_cycle.symptoms.contains "headache" then 1 else 0),
   (if last_cycle.flow = some "heavy" then 1 else 0),
   (((civilFromDays last_cycle.start_date).2.1 : Int) : ℚ),
   ((pyWeekday last_cycle.start_date : Int) : ℚ)]

/-- `aiml/cycle_prediction_model.py::CyclePredictor._fallback_prediction`:
average gap rounded and clamped to [25, 35] when at least 2 records exist,
otherwise the record's own `cycle_length` (default 28). -/
def aimlFallbackPrediction (cycles : List CycleRecord) : AimlPredResult :=
  let cs := sortByStart cycles
  let last_cycle := cs.getLastD (mkRec 0)
  let avg_length : Int :=
    if 2 ≤ cs.length then
      let lengths : List ℚ :=
        (cs.zip cs.tail).map (fun p => ((p.2.start_date - p.1.start_date : Int) : ℚ))
      max 25 (min 35 (pyRound (lengths.sum / (lengths.length : ℚ))))
    else last_cycle.cycle_length.getD 28
  let next_period := last_cycle.start_date + avg_length
  { next_period_date := next_period
    fertile_window := aimlCalculateFertileWindow next_period avg_length
    predicted_cycle_length := avg_length
    confidence := .low
    fallback_used := true }

/-- Body of the `try:` block of
`aiml/cycle_prediction_model.py::CyclePredictor.predict_next_cycle`: build the
feature row from the latest record, scale it, run the regressor, round and
clamp its output to [21, 35]. -/
def aimlPredictBody (model : List ℚ → Except PyErr ℚ)
    (scaler : List ℚ → Except PyErr (List ℚ))
    (cycles : List CycleRecord) : Except PyErr AimlPredResult :=
  let cs := sortByStart cycles
  let last_cycle := cs.getLastD (mkRec 0)
  match scaler (aimlFeatures cs last_cycle) with
  | .error e => .error e
  | .ok xs =>
    match model xs with
    | .error e => .error e
    | .ok raw =>
      let predicted_length : Int := max 21 (min 35 (pyRound raw))
      let next_period := last_cycle.start_date + predicted_length
      .ok { next_period_date := next_period
            fertile_window := aimlCalculateFertileWindow next_period predicted_length
            predicted_cycle_length := predicted_length
            confidence := aimlGetConfidenceInterval cycles.length
            fallback_used := false }

/-- `aiml/cycle_prediction_model.py::CyclePredictor.predict_next_cycle`:
raises `ValueError` on an empty history, otherwise catches every failure of
the body and answers with `_fallback_prediction`. -/
def predictNextCycle (model : List ℚ → Except PyErr ℚ)
    (scaler : List ℚ → Except PyErr (List ℚ))
    (cycles : List CycleRecord) : Except PyErr AimlPredResult :=
  if cycles = [] then
    .error (.valueError "No cycle data provided")
  else
    match aimlPredictBody model scaler cycles with
    | .ok r => .ok r
    | .error _ => .ok (aimlFallbackPrediction cycles)

/-- Recursion of `aiml/cycle_prediction_model.py::DataProcessor.process_cycles`
over the sorted records: for each consecutive pair emit one feature row from
the previous record (with `previous_cycle_length` looking one further back,
28 when absent) and the pair's gap as target. -/
def aimlRows (prevprev : Option CycleRecord) (prev : CycleRecord) :
    List CycleRecord → List (List ℚ) × List ℚ
  | [] => ([], [])
  | curr :: rest =>
    let cycle_length : ℚ := ((curr.start_date - prev.start_date : Int) : ℚ)
    let previous_cycle_length : ℚ :=
      match prevprev with
      | some pp => ((prev.start_date - pp.start_date : Int) : ℚ)
      | none => 28
    let row : List ℚ :=
      [previous_cycle_length,
       (prev.symptoms.length : ℚ),
       (if prev.symptoms.contains "cramps" then 1 else 0),
       (if prev.symptoms.contains "headache" then 1 else 0),
       (if prev.flow = some "heavy" then 1 else 0),
       (((civilFromDays prev.start_date).2.1 : Int) : ℚ),
       ((pyWeekday prev.start_date : Int) : ℚ)]
    let rec_rest := aimlRows (some prev) curr rest
    (row :: rec_rest.1, cycle_length :: rec_rest.2)

/-- `aiml/cycle_prediction_model.py::DataProcessor.process_cycles`. -/
def processCycles (cycles : List CycleRecord) :
    Except PyErr (List (List ℚ) × List ℚ) :=
  if cycles.length < 2 then
    .error (.valueError "At least 2 cycles are required for training")
  else
    match sortByStart cycles with
    | [] => .ok ([], [])
    | a :: rest => .ok (aimlRows none a rest)

/-- Train/test evaluation metrics produced by the sklearn fit (MAE and R² on
both partitions); their numeric values come from the library. -/
structure TrainEval where
  train_mae : ℚ
  train_r2 : ℚ
  test_mae : ℚ
  test_r2 : ℚ
deriving DecidableEq

/-- Structured result dictionary of
`aiml/cycle_prediction_model.py::CyclePredictor.train`.  `metrics = none`
models the empty `{}`; `n_samples` is present only on success. -/
structure AimlTrainResult where
  status : String
  message : Option String
  metrics : Option TrainEval
  n_samples : Option Nat
deriving DecidableEq

/-- Body of the `try:` block of `aiml` `CyclePredictor.train`: preprocess,
return `insufficient_data` for fewer than 5 rows, then split/scale/fit/
evaluate (the sklearn step `fit`) and save; exceptions propagate. -/
def aimlTrainBody (fit : List (List ℚ) → List ℚ → Except PyErr TrainEval)
    (saveModel : Except PyErr Unit)
    (cycles : List CycleRecord) : Except PyErr AimlTrainResult :=
  match processCycles cycles with
  | .error e => .error e
  | .ok (X, y) =>
    if X.length < 5 then
      .ok { status := "insufficient_data"
            message := some ("At least 5 cycles are needed for training, got "
              ++ toString X.length)
            metrics := none
            n_samples := none }
    else
      match fit X y with
      | .error e => .error e
      | .ok ev =>
        match saveModel with
        | .error e => .error e
        | .ok _ =>
          .ok { status := "success"
                message := none
                metrics := some ev
                n_samples := some cycles.length }

/-- `aiml/cycle_prediction_model.py::CyclePredictor.train`: every exception of
the body is caught and converted to a structured `status: "error"` result. -/
def aimlTrain (fit : List (List ℚ) → List ℚ → Except PyErr TrainEval)
    (saveModel : Except PyErr Unit)
    (cycles : List CycleRecord) : AimlTrainResult :=
  match aimlTrainBody fit saveModel cycles with
  | .ok r => r
  | .error e =>
    { status := "error", message := some e.msg, metrics := none, n_samples := none }

/-- Metrics of the backend `CyclePredictor.train` success dictionary. -/
structure BackendTrainEval where
  train_score : ℚ
  test_score : ℚ
deriving DecidableEq

/-- Success dictionary of `backend` `CyclePredictor.train`. -/
structure BackendTrainResult where
  status : String
  train_score : ℚ
  test_score : ℚ
  n_samples : Nat
deriving DecidableEq

/-- `backend/app/services/cycle_predictor.py::CyclePredictor.train`: raises
`ValueError` below `MIN_CYCLES_FOR_TRAINING = 3`; the `except` clause logs and
re-raises, so every internal failure (preprocessing, the sklearn
split/scale/fit step `fit`, artifact saving) escapes to the caller. -/
def trainBackend (fit : List (List ℚ) → List ℚ → Except PyErr BackendTrainEval)
    (save : Except PyErr Unit) (saveFlag : Bool) (sq : ℚ → ℚ)
    (cycles : List CycleRecord) : Except PyErr BackendTrainResult :=
  if cycles.length < 3 then
    .error (.valueError "At least 3 cycles are required for training")
  else
    match preprocessData sq cycles with
    | .error e => .error e
    | .ok (X, y, _) =>
      match fit X y with
      | .error e => .error e
      | .ok ev =>
        match (if saveFlag then save else .ok ()) with
        | .error e => .error e
        | .ok _ =>
          .ok { status := "success", train_score := ev.train_score,
                test_score := ev.test_score, n_samples := X.length }

/-- The artifact directory: the three files written by
`ml_utils.save_model_artifacts`, each holding a serialized blob (`none` =
file absent). -/
structure ArtifactStore where
  model_file : Option Nat
  scaler_file : Option Nat
  metadata_file : Option Nat
deriving DecidableEq

/-- `backend/app/core/ml_utils.py::save_model_artifacts`: dumps the model,
then the scaler, then the metadata, each directly to its final path (no
temporary file, no rename).  `failAt = some k` injects an I/O failure at the
k-th write; the surrounding `except` clause logs and re-raises, so the error
reaches the caller while all earlier writes stay on disk. -/
def saveModelArtifacts (failAt : Option Nat) (model scaler metadata : Nat)
    (st : ArtifactStore) : ArtifactStore × Except PyErr Unit :=
  if failAt = some 0 then
    (st, .error (.other "dump model failed"))
  else
    let st1 := { st with model_file := some model }
    if failAt = some 1 then
      (st1, .error (.other "dump scaler failed"))
    else
      let st2 := { st1 with scaler_file := some scaler }
      if failAt = some 2 then
        (st2, .error (.other "write metadata failed"))
      else
        ({ st2 with metadata_file := some metadata }, .ok ())

/-- Square-root oracle used by concrete evaluations (its value never matters). -/
def sq0 : ℚ → ℚ := fun _ => 0

/-- A Gemini collaborator that is unreachable (raises on call). -/
def g0 : List CycleRecord → Except PyErr GeminiOutcome :=
  fun _ => .error (.other "gemini unavailable")

/-- Concrete sklearn fit step for the backend train embedding. -/
def bfit0 : List (List ℚ) → List ℚ → Except PyErr BackendTrainEval :=
  fun _ _ => .ok ⟨1, 1⟩

/-- Concrete sklearn fit step for the aiml train embedding. -/
def afit0 : List (List ℚ) → List ℚ → Except PyErr TrainEval :=
  fun _ _ => .ok ⟨0, 1, 0, 1⟩

/-- The record `{start_date: 2023-01-01}` of the two-cycle scenario. -/
def recJan23 : CycleRecord := mkRec (civilToDays 2023 1 1)

/-- The record `{start_date: 2023-02-01}` of the two-cycle scenario. -/
def recFeb23 : CycleRecord := mkRec (civilToDays 2023 2 1)

/-- Three records with gaps 28 and 30 days. -/
def cycles3 : List CycleRecord := [mkRec 0, mkRec 28, mkRec 58]

/-- A populated artifact directory prior to a retrain. -/
def storeOld : ArtifactStore := ⟨some 1, some 2, some 3⟩

/-- A regressor stub returning a constant raw output. -/
def mConst (q : ℚ) : List ℚ → Except PyErr ℚ := fun _ => .ok q

/-- A fitted scaler stub behaving as the identity transform. -/
def scId : List ℚ → Except PyErr (List ℚ) := fun xs => .ok xs

/-- The result of the ML strategy on `cycles3` with regressor stub
`mConst 1000` (raw output clamped to 45). -/
def rC5 : PredResult :=
  { status := "success", next_period_date := 103, cycle_length := 45,
    fertile_window := ⟨84, 90, 89⟩, confidence := .medium,
    model_used := "ml_model", last_cycle_date := some 58, message := none }

/-- C8: the fertile-window computation is pure arithmetic: for any
next-period date `d`, `ovulation_day = d - 14`, `fertile_start = d - 19`,
`fertile_end = d - 13`, in both the backend `predict_fertile_window` and the
aiml `_calculate_fertile_window`; concretely `d = 2024-03-01` gives ovulation
2024-02-16 and window 2024-02-11 .. 2024-02-17. -/
theorem C8_fertile_window_arithmetic :
    (∀ (d : Int) (cl : Option ℚ),
        (predictFertileWindow d cl).ovulation_day = d - 14
        ∧ (predictFertileWindow d cl).fertile_window_start = d - 14 - 5
        ∧ (predictFertileWindow d cl).fertile_window_end = d - 14 + 1)
    ∧ (∀ d cl : Int,
        aimlCalculateFertileWindow d cl = ⟨d - 14 - 5, d - 14 + 1, d - 14⟩)
    ∧ (predictFertileWindow (civilToDays 2024 3 1) none).ovulation_day = civilToDays 2024 2 16
    ∧ (predictFertileWindow (civilToDays 2024 3 1) none).fertile_window_start
        = civilToDays 2024 2 11
    ∧ (predictFertileWindow (civilToDays 2024 3 1) none).fertile_window_end
        = civilToDays 2024 2 17 := by
  refine ⟨fun d cl => ⟨rfl, rfl, rfl⟩, fun d cl => rfl, by decide, by decide, by decide⟩

/-- C6 counterexample: at history length 5 the aiml confidence estimator
(`_get_confidence_interval`, one of the claim's two sources) answers `high`,
while the claim requires `medium` for every `3 ≤ n < 6`. -/
theorem C6_counterexample :
    aimlGetConfidenceInterval 5 = Confidence.high
    ∧ Confidence.high ≠ Confidence.medium
    ∧ 3 ≤ 5 ∧ 5 < 6 := by decide

/-- C6 (amended): the backend `_calculate_confidence` realises exactly the
claimed thresholds (high iff `n ≥ 6`, medium iff `3 ≤ n < 6`, low iff
`n < 3`) and both estimators are monotone in history length; the aiml copy
instead returns high iff `n ≥ 5`. -/
theorem C6_confidence_thresholds :
    (∀ n : Nat,
        (calculateConfidence n = .high ↔ 6 ≤ n)
        ∧ (calculateConfidence n = .medium ↔ 3 ≤ n ∧ n < 6)
        ∧ (calculateConfidence n = .low ↔ n < 3))
    ∧ (∀ n : Nat, aimlGetConfidenceInterval n = .high ↔ 5 ≤ n)
    ∧ (∀ m n : Nat, m ≤ n →
        (calculateConfidence m).rank ≤ (calculateConfidence n).rank
        ∧ (aimlGetConfidenceInterval m).rank ≤ (aimlGetConfidenceInterval n).rank) := by
  refine ⟨fun n => ?_, fun n => ?_, fun m n h => ?_⟩
  · unfold calculateConfidence
    split_ifs with h6 h3 <;> refine ⟨?_, ?_, ?_⟩ <;> constructor <;> intro hx <;>
      first | omega | (exact absurd hx (by decide)) | trivial
  · unfold aimlGetConfidenceInterval
    split_ifs with h5 h3 <;> constructor <;> intro hx <;>
      first | omega | (exact absurd hx (by decide)) | trivial
  · unfold calculateConfidence aimlGetConfidenceInterval
    constructor <;> split_ifs <;> simp only [Confidence.rank] <;> omega

/-- Witness for C6: instantiating monotonicity at 2 ≤ 7. -/
theorem C6_confidence_thresholds_witness :
    (calculateConfidence 2).rank ≤ (calculateConfidence 7).rank
    ∧ (aimlGetConfidenceInterval 2).rank ≤ (aimlGetConfidenceInterval 7).rank :=
  C6_confidence_thresholds.2.2 2 7 (by decide)

/-- C10 counterexample: a save that fails at the second write (the scaler
dump) leaves the directory neither in its previous state nor fully updated —
the model file is already overwritten while scaler and metadata are old. -/
theorem C10_counterexample :
    (saveModelArtifacts (some 1) 10 11 12 storeOld).1 ≠ storeOld
    ∧ (saveModelArtifacts (some 1) 10 11 12 storeOld).1 ≠ ⟨some 10, some 11, some 12⟩
    ∧ (saveModelArtifacts (some 1) 10 11 12 storeOld).1 = ⟨some 10, some 2, some 3⟩
    ∧ (saveModelArtifacts (some 1) 10 11 12 storeOld).2
        = .error (.other "dump scaler failed") := by
  refine ⟨by decide, by decide, rfl, rfl⟩

/-- C10 (amended): `save_model_artifacts` writes model, scaler and metadata
directly to their final paths in that order, with no temp-then-replace; a
write failure is re-raised to the caller and every file written before the
failing step stays overwritten while later files keep their prior content. -/
theorem C10_save_not_atomic :
    ∀ (st : ArtifactStore) (m s md : Nat),
      saveModelArtifacts none m s md st = (⟨some m, some s, some md⟩, .ok ())
      ∧ saveModelArtifacts (some 0) m s md st = (st, .error (.other "dump model failed"))
      ∧ saveModelArtifacts (some 1) m s md st
          = ({ st with model_file := some m }, .error (.other "dump scaler failed"))
      ∧ saveModelArtifacts (some 2) m s md st
          = ({ st with model_file := some m, scaler_file := some s },
             .error (.other "write metadata failed")) := by
  intro st m s md
  exact ⟨rfl, rfl, rfl, rfl⟩

/-- C2 counterexample: the backend `CyclePredictor.train` (one of the claim's
two sources) raises `ValueError` on an empty history instead of returning a
structured status. -/
theorem C2_counterexample :
    trainBackend bfit0 (.ok ()) true sq0 []
      = .error (.valueError "At least 3 cycles are required for training") := rfl

/-- Every normal (non-raising) return of the aiml train body carries status
"success" or "insufficient_data". -/
theorem aimlTrainBody_ok_status
    (fit : List (List ℚ) → List ℚ → Except PyErr TrainEval)
    (saveModel : Except PyErr Unit) (cycles : List CycleRecord)
    (r : AimlTrainResult) (h : aimlTrainBody fit saveModel cycles = .ok r) :
    r.status = "success" ∨ r.status = "insufficient_data" := by
  unfold aimlTrainBody at h
  split at h
  · exact absurd h (by simp)
  · split at h
    · injection h with h
      subst h
      right
      rfl
    · split at h
      · exact absurd h (by simp)
      · split at h
        · exact absurd h (by simp)
        · injection h with h
          subst h
          left
          rfl

/-- C2 (amended): the aiml `CyclePredictor.train` returns a structured result
whose status is always one of "success", "insufficient_data" or "error" and
lets no exception escape (it is a total function); the backend service copy
instead raises `ValueError` below 3 cycles and re-raises internal failures. -/
theorem C2_train_structured_status :
    ∀ (fit : List (List ℚ) → List ℚ → Except PyErr TrainEval)
      (saveModel : Except PyErr Unit) (cycles : List CycleRecord),
      (aimlTrain fit saveModel cycles).status = "success"
      ∨ (aimlTrain fit saveModel cycles).status = "insufficient_data"
      ∨ (aimlTrain fit saveModel cycles).status = "error" := by
  intro fit saveModel cycles
  cases hb : aimlTrainBody fit saveModel cycles with
  | ok r =>
    unfold aimlTrain
    rw [hb]
    rcases aimlTrainBody_ok_status fit saveModel cycles r hb with h | h <;> simp [h]
  | error e =>
    unfold aimlTrain
    rw [hb]
    simp


/-- Concrete evaluation of the average fallback on the two-record January /
February 2023 history. -/
theorem evalFallbackJanFeb :
    getFallbackPrediction 0 (some [recJan23, recFeb23]) =
      { status := "success", next_period_date := 19420, cycle_length := 31,
        fertile_window := ⟨19401, 19407, 19406⟩, confidence := .medium,
        model_used := "average", last_cycle_date := some 19389, message := none } := by
  have h1 : recJan23 = ⟨19358, none, none, [], none⟩ := by decide
  have h2 : recFeb23 = ⟨19389, none, none, [], none⟩ := by decide
  rw [getFallbackPrediction, h1, h2]
  have hs : sortByStart [(⟨19358, none, none, [], none⟩ : CycleRecord),
      ⟨19389, none, none, [], none⟩] = [⟨19358, none, none, [], none⟩,
      ⟨19389, none, none, [], none⟩] := by decide
  rw [hs]
  norm_num [pyMaxBy, predictFertileWindow, addDays, PredResult.mk.injEq]

/-- C3 counterexample: on the two-record history the average-strategy
fallback reports confidence `medium` (the code literally returns
`'medium' if cycle_lengths else 'low'`), not the claimed `low`. -/
theorem C3_counterexample :
    (predict 0 false g0 none none sq0 [recJan23, recFeb23]).toOption.map
        PredResult.confidence = some Confidence.medium
    ∧ Confidence.medium ≠ Confidence.low := by
  constructor
  · have hpred : predict 0 false g0 none none sq0 [recJan23, recFeb23]
        = .ok (getFallbackPrediction 0 (some [recJan23, recFeb23])) := rfl
    rw [hpred, evalFallbackJanFeb]
    rfl
  · decide

/-- C3 (amended): for `[{2023-01-01}, {2023-02-01}]` with no trained model,
`predict` uses the average strategy and returns cycle length 31 and next
period 2023-03-04 as claimed, but with confidence `medium`, not `low`: the
fallback path reports `medium` whenever at least one inter-start gap exists,
bypassing `_calculate_confidence`. -/
theorem C3_two_cycle_scenario :
    predict 0 false g0 none none sq0 [recJan23, recFeb23]
      = .ok { status := "success", next_period_date := civilToDays 2023 3 4,
              cycle_length := 31,
              fertile_window := ⟨civilToDays 2023 2 13, civilToDays 2023 2 19,
                civilToDays 2023 2 18⟩,
              confidence := .medium, model_used := "average",
              last_cycle_date := some (civilToDays 2023 2 1), message := none } := by
  have hpred : predict 0 false g0 none none sq0 [recJan23, recFeb23]
      = .ok (getFallbackPrediction 0 (some [recJan23, recFeb23])) := rfl
  rw [hpred, evalFallbackJanFeb]
  have e1 : civilToDays 2023 3 4 = 19420 := by decide
  have e2 : civilToDays 2023 2 13 = 19401 := by decide
  have e3 : civilToDays 2023 2 19 = 19407 := by decide
  have e4 : civilToDays 2023 2 18 = 19406 := by decide
  have e5 : civilToDays 2023 2 1 = 19389 := by decide
  rw [e1, e2, e3, e4, e5]

/-- Each loop iteration of `preprocess_data` appends to `X` a row whose head
is the gap it simultaneously appends to `y`, so the head-of-row/target
correspondence is preserved by the whole fold. -/
theorem ppFold_head_eq_target (sq : ℚ → ℚ) :
    ∀ (ps : List (CycleRecord × CycleRecord)) (s : PPState),
      s.X.map (fun r => r.headD 0) = s.y →
      ((ps.foldl (ppStep sq) s).X.map (fun r => r.headD 0)) = (ps.foldl (ppStep sq) s).y := by
  intro ps
  induction ps with
  | nil => intro s h; exact h
  | cons p ps ih =>
    intro s h
    simp only [List.foldl_cons]
    apply ih
    simp only [ppStep]
    split
    · simp only [List.map_append, h, List.map_cons, List.map_nil, List.headD_cons]
      rw [List.getLastD_concat]
    · exact h

/-- C4 (code bug): in both backend copies of `preprocess_data`, the training
target of every emitted feature row equals the row's own `prev_cycle_length`
feature (the code assigns `target = cycle_length`, the very gap it just
recorded as `cycle_lengths[-1]`), although the code's own comment and the
spec say the target is the next cycle's length — a distinct, later
observation. -/
theorem C4_target_equals_prev_feature :
    ∀ (sq : ℚ → ℚ) (cycles : List CycleRecord),
      (preprocessData sq cycles).toOption.map (fun p => p.1.map (fun r => r.headD 0))
        = (preprocessData sq cycles).toOption.map (fun p => p.2.1) := by
  intro sq cycles
  simp only [preprocessData]
  split
  · rfl
  · split
    · rfl
    · simp only [Except.toOption, Option.map]
      exact congrArg some (ppFold_head_eq_target sq _ ⟨[], [], [], []⟩ rfl)

/-- Length bookkeeping of the `preprocess_data` loop: each iteration extends
the running gap list by one, and a feature row is emitted from the second
iteration on, so `X` always stays one shorter than the gap list. -/
theorem ppFold_lengths (sq : ℚ → ℚ) :
    ∀ (ps : List (CycleRecord × CycleRecord)) (s : PPState),
      s.X.length = s.cycle_lengths.length - 1 →
      ((ps.foldl (ppStep sq) s).cycle_lengths.length = s.cycle_lengths.length + ps.length
        ∧ (ps.foldl (ppStep sq) s).X.length
            = (ps.foldl (ppStep sq) s).cycle_lengths.length - 1) := by
  intro ps
  induction ps with
  | nil => intro s h; exact ⟨by simp, h⟩
  | cons p ps ih =>
    intro s h
    simp only [List.foldl_cons, List.length_cons]
    have hstep_cl : (ppStep sq s p).cycle_lengths.length = s.cycle_lengths.length + 1 := by
      simp only [ppStep]
      split <;> simp
    have hstep_X : (ppStep sq s p).X.length = (ppStep sq s p).cycle_lengths.length - 1 := by
      simp only [ppStep]
      split
      · rename_i hc
        simp only [List.length_append, List.length_cons, List.length_nil] at hc ⊢
        omega
      · rename_i hc
        simp only [List.length_append, List.length_cons, List.length_nil] at hc ⊢
        omega
    obtain ⟨ha, hb⟩ := ih (ppStep sq s p) hstep_X
    refine ⟨?_, hb⟩
    rw [ha, hstep_cl]
    omega

/-- C7 (amended): `preprocess_data` fails with
"At least 2 cycles are required for prediction" for fewer than 2 records,
but for exactly 2 records it does not return zero rows — it raises
"Insufficient data to create features"; for `N ≥ 3` records it succeeds with
exactly `N - 2` feature rows.  (The errors are plain `ValueError`s; no
separate `InsufficientDataError` type exists in the code.) -/
theorem C7_feature_row_count :
    ∀ (sq : ℚ → ℚ) (cycles : List CycleRecord),
      (cycles.length < 2 →
        preprocessData sq cycles
          = .error (.valueError "At least 2 cycles are required for prediction"))
      ∧ (cycles.length = 2 →
        preprocessData sq cycles
          = .error (.valueError "Insufficient data to create features"))
      ∧ (3 ≤ cycles.length →
        ∃ X y, preprocessData sq cycles = .ok (X, y, featureNames)
          ∧ X.length = cycles.length - 2) := by
  intro sq cycles
  have hsl : (sortByStart cycles).length = cycles.length :=
    (List.perm_insertionSort startLe cycles).length_eq
  have hpairs : ((sortByStart cycles).zip (sortByStart cycles).tail).length
      = cycles.length - 1 := by
    rw [List.length_zip, List.length_tail, hsl]
    omega
  have hfold := ppFold_lengths sq ((sortByStart cycles).zip (sortByStart cycles).tail)
    ⟨[], [], [], []⟩ (by simp)
  refine ⟨fun h => ?_, fun h => ?_, fun h => ?_⟩
  · simp only [preprocessData]
    rw [if_pos h]
  · simp only [preprocessData]
    rw [if_neg (by omega)]
    have h1 := hfold.1
    have h2 := hfold.2
    dsimp only [List.length_nil] at h1
    rw [hpairs] at h1
    have hX : (List.foldl (ppStep sq) ⟨[], [], [], []⟩
        ((sortByStart cycles).zip (sortByStart cycles).tail)).X = [] := by
      apply List.length_eq_zero.mp
      omega
    rw [if_pos hX]
  · simp only [preprocessData]
    rw [if_neg (by omega)]
    have h1 := hfold.1
    have h2 := hfold.2
    dsimp only [List.length_nil] at h1
    rw [hpairs] at h1
    have hXlen : (List.foldl (ppStep sq) ⟨[], [], [], []⟩
        ((sortByStart cycles).zip (sortByStart cycles).tail)).X.length
        = cycles.length - 2 := by
      omega
    have hXne : (List.foldl (ppStep sq) ⟨[], [], [], []⟩
        ((sortByStart cycles).zip (sortByStart cycles).tail)).X ≠ [] := by
      intro hnil
      rw [hnil] at hXlen
      simp at hXlen
      omega
    rw [if_neg hXne]
    exact ⟨_, _, rfl, hXlen⟩

/-- C7 counterexample: with exactly 2 records `preprocess_data` raises
`ValueError("Insufficient data to create features")` instead of returning
zero feature rows without an error. -/
theorem C7_counterexample :
    preprocessData sq0 [mkRec 0, mkRec 28]
      = .error (.valueError "Insufficient data to create features") :=
  (C7_feature_row_count sq0 [mkRec 0, mkRec 28]).2.1 rfl

/-- Witness for C7: the three regimes at concrete inputs — 1 record errors,
2 records error as well, 3 records yield exactly one feature row. -/
theorem C7_feature_row_count_witness :
    preprocessData sq0 [mkRec 0]
      = .error (.valueError "At least 2 cycles are required for prediction")
    ∧ (∃ X y, preprocessData sq0 cycles3 = .ok (X, y, featureNames)
        ∧ X.length = cycles3.length - 2) :=
  ⟨(C7_feature_row_count sq0 [mkRec 0]).1 (by decide),
   (C7_feature_row_count sq0 cycles3).2.2 (by decide)⟩

/-- C1 counterexample: the aiml `predict_next_cycle` (one of the claim's two
sources) raises `ValueError` on the empty history instead of returning a
prediction. -/
theorem C1_counterexample :
    predictNextCycle (mConst 28) scId []
      = .error (.valueError "No cycle data provided") := rfl

/-- C1 (amended): the backend `CyclePredictor.predict` returns a well-formed
result and never raises, for every history, model/scaler state, square-root
oracle and Gemini collaborator (every internal failure demotes to the
fallback); the aiml `predict_next_cycle` satisfies this only for nonempty
histories — it raises `ValueError` on the empty list. -/
theorem C1_predict_never_raises :
    (∀ (today : Int) (geminiKey : Bool)
        (gemini : List CycleRecord → Except PyErr GeminiOutcome)
        (model : Option (List ℚ → Except PyErr ℚ))
        (scaler : Option (List ℚ → Except PyErr (List ℚ)))
        (sq : ℚ → ℚ) (cycles : List CycleRecord),
        ∃ r, predict today geminiKey gemini model scaler sq cycles = .ok r)
    ∧ (∀ (model : List ℚ → Except PyErr ℚ)
        (scaler : List ℚ → Except PyErr (List ℚ))
        (cycles : List CycleRecord), cycles ≠ [] →
        ∃ r, predictNextCycle model scaler cycles = .ok r) := by
  constructor
  · intro today gk g m s sq cs
    unfold predict
    split
    · exact ⟨_, rfl⟩
    · cases hb : predictBody today gk g m s sq cs with
      | ok r => exact ⟨r, rfl⟩
      | error e => exact ⟨_, rfl⟩
  · intro m s cs h
    unfold predictNextCycle
    rw [if_neg h]
    cases hb : aimlPredictBody m s cs with
    | ok r => exact ⟨r, rfl⟩
    | error e => exact ⟨_, rfl⟩

/-- Witness for C1: the aiml predictor succeeds on a concrete nonempty
history. -/
theorem C1_predict_never_raises_witness :
    (predictNextCycle (mConst 28) scId [mkRec 0]).toOption.isSome = true := by
  obtain ⟨r, hr⟩ := C1_predict_never_raises.2 (mConst 28) scId [mkRec 0] (by decide)
  rw [hr]
  rfl

/-- The backend fallback constructor only ever labels its result "fallback"
(zero history) or "average". -/
theorem getFallbackPrediction_model_used (t : Int) (c : Option (List CycleRecord)) :
    (getFallbackPrediction t c).model_used = "fallback"
    ∨ (getFallbackPrediction t c).model_used = "average" := by
  rcases c with _ | c
  · left; rfl
  · rcases c with _ | ⟨a, l⟩
    · left; rfl
    · right; rfl

/-- Every "ml_model" result of the backend predict body carries a cycle
length of the form `max 21 (min 45 raw)`, hence lies in [21, 45]. -/
theorem predictBody_ml_bounds (today : Int)
    (gemini : List CycleRecord → Except PyErr GeminiOutcome)
    (model : Option (List ℚ → Except PyErr ℚ))
    (scaler : Option (List ℚ → Except PyErr (List ℚ)))
    (sq : ℚ → ℚ) (cycles : List CycleRecord) (r : PredResult)
    (h : predictBody today false gemini model scaler sq cycles = .ok r)
    (hm : r.model_used = "ml_model") :
    21 ≤ r.cycle_length ∧ r.cycle_length ≤ 45 := by
  unfold predictBody at h
  simp only [Bool.false_eq_true, if_false] at h
  have hfb : ∀ c, (getFallbackPrediction today c).model_used ≠ "ml_model" := by
    intro c
    rcases getFallbackPrediction_model_used today c with hx | hx <;> rw [hx] <;> decide
  rcases model with _ | m
  · dsimp only at h
    injection h with h
    rw [← h] at hm
    exact absurd hm (hfb _)
  · rcases scaler with _ | sc
    · dsimp only at h
      injection h with h
      rw [← h] at hm
      exact absurd hm (hfb _)
    · dsimp only at h
      split at h
      · split at h
        · exact absurd h (by simp)
        · split at h
          · exact absurd h (by simp)
          · split at h
            · exact absurd h (by simp)
            · injection h with h
              rw [← h]
              refine ⟨le_max_left _ _, max_le (by norm_num) (min_le_left _ _)⟩
      · injection h with h
        rw [← h] at hm
        exact absurd hm (hfb _)

/-- Every non-fallback result of the aiml predict body carries
`max 21 (min 35 (round raw))`, hence lies in [21, 35]. -/
theorem aimlPredictBody_bounds (m : List ℚ → Except PyErr ℚ)
    (sc : List ℚ → Except PyErr (List ℚ)) (cycles : List CycleRecord)
    (r : AimlPredResult) (h : aimlPredictBody m sc cycles = .ok r) :
    21 ≤ r.predicted_cycle_length ∧ r.predicted_cycle_length ≤ 35 := by
  unfold aimlPredictBody at h
  dsimp only at h
  split at h
  · exact absurd h (by simp)
  · split at h
    · exact absurd h (by simp)
    · injection h with h
      rw [← h]
      exact ⟨le_max_left _ _, max_le (by decide) (min_le_left _ _)⟩

/-- C5 (amended): every ML-strategy prediction lies in [21, 45]; the backend
copies clamp the raw regressor output to [21, 45], while the aiml copy clamps
to the narrower [21, 35] (so its output still lies in [21, 45], but is not
`clamp_{[21,45]}` of the raw output). -/
theorem C5_clamp :
    (∀ (today : Int) (gemini : List CycleRecord → Except PyErr GeminiOutcome)
        (model : Option (List ℚ → Except PyErr ℚ))
        (scaler : Option (List ℚ → Except PyErr (List ℚ)))
        (sq : ℚ → ℚ) (cycles : List CycleRecord) (r : PredResult),
        predict today false gemini model scaler sq cycles = .ok r →
        r.model_used = "ml_model" →
        21 ≤ r.cycle_length ∧ r.cycle_length ≤ 45)
    ∧ (∀ (model : List ℚ → Except PyErr ℚ) (scaler : List ℚ → Except PyErr (List ℚ))
        (cycles : List CycleRecord) (r : AimlPredResult),
        predictNextCycle model scaler cycles = .ok r →
        r.fallback_used = false →
        21 ≤ r.predicted_cycle_length ∧ r.predicted_cycle_length ≤ 35
          ∧ r.predicted_cycle_length ≤ 45) := by
  have hfb : ∀ t c, (getFallbackPrediction t c).model_used ≠ "ml_model" := by
    intro t c
    rcases getFallbackPrediction_model_used t c with hx | hx <;> rw [hx] <;> decide
  constructor
  · intro today gemini model scaler sq cycles r h hm
    unfold predict at h
    split at h
    · injection h with h
      rw [← h] at hm
      exact absurd hm (hfb _ _)
    · split at h
      · rename_i r' heq
        injection h with h
        rw [← h] at hm ⊢
        exact predictBody_ml_bounds today gemini model scaler sq cycles r' heq hm
      · injection h with h
        rw [← h] at hm
        exact absurd hm (hfb _ _)
  · intro model scaler cycles r h hf
    unfold predictNextCycle at h
    split at h
    · exact absurd h (by simp)
    · split at h
      · rename_i r' heq
        injection h with h
        rw [← h]
        obtain ⟨h1, h2⟩ := aimlPredictBody_bounds model scaler cycles r' heq
        exact ⟨h1, h2, le_trans h2 (by decide)⟩
      · injection h with h
        have hT : (aimlFallbackPrediction cycles).fallback_used = true := rfl
        rw [← h, hT] at hf
        exact Bool.noConfusion hf

/-- Concrete evaluation of the aiml predictor with a regressor stub whose raw
output is 40: the result is clamped at 35. -/
theorem evalAiml40 :
    predictNextCycle (mConst 40) scId [mkRec 0]
      = .ok ⟨35, ⟨16, 22, 21⟩, 35, .low, false⟩ := by
  have hb : aimlPredictBody (mConst 40) scId [mkRec 0]
      = .ok ⟨35, ⟨16, 22, 21⟩, 35, .low, false⟩ := by
    unfold aimlPredictBody
    dsimp only [mConst, scId]
    norm_num [pyRound, sortByStart, List.insertionSort, List.orderedInsert, mkRec,
      aimlGetConfidenceInterval, aimlCalculateFertileWindow, AimlPredResult.mk.injEq,
      FertileWindow.mk.injEq, List.getLastD]
  rw [predictNextCycle, if_neg (by decide), hb]

/-- C5 counterexample: with a regressor whose raw output is 40, the aiml copy
(one of the claim's two sources) returns 35 — the [21, 35] clamp — whereas
clamping to the claimed fixed range [21, 45] would return 40. -/
theorem C5_counterexample :
    (predictNextCycle (mConst 40) scId [mkRec 0]).toOption.map
        AimlPredResult.predicted_cycle_length = some 35
    ∧ max 21 (min 45 (40 : ℚ)) = 40
    ∧ (35 : Int) ≠ 40 := by
  refine ⟨?_, by norm_num, by decide⟩
  rw [evalAiml40]
  rfl

/-- Concrete evaluation of `preprocess_data` on the three-record history with
gaps 28 and 30: one row, whose first feature equals the target. -/
theorem evalPreprocessCycles3 :
    preprocessData sq0 cycles3 = .ok ([[30, 5, 29, 5, 0, 0]], [30], featureNames) := by
  have hs : sortByStart cycles3 = cycles3 := by decide
  rw [preprocessData, hs]
  simp only [cycles3, mkRec]
  norm_num [ppStep, npStd, npVar, sq0, List.getLastD]

/-- Concrete evaluation of the backend ML strategy with an extreme regressor
stub (raw output 1000): the returned cycle length is clamped to 45. -/
theorem evalPredictMl :
    predict 0 false g0 (some (mConst 1000)) (some scId) sq0 cycles3 = .ok rC5 := by
  have hb : predictBody 0 false g0 (some (mConst 1000)) (some scId) sq0 cycles3
      = .ok rC5 := by
    unfold predictBody
    simp only [Bool.false_eq_true, if_false]
    rw [show sortByStart cycles3 = cycles3 from by decide]
    rw [if_pos (by decide)]
    rw [evalPreprocessCycles3]
    dsimp only [scId, mConst]
    norm_num [rC5, addDays, predictFertileWindow, calculateConfidence, cycles3, mkRec,
      PredResult.mk.injEq, FertileWindow.mk.injEq, List.getLastD]
  rw [predict, if_neg (by decide), hb]

/-- Witness for C5: the ML strategy run with an extreme regressor stub
produces `rC5` with cycle length 45 ∈ [21, 45]. -/
theorem C5_clamp_witness :
    21 ≤ rC5.cycle_length ∧ rC5.cycle_length ≤ 45 :=
  C5_clamp.1 0 g0 (some (mConst 1000)) (some scId) sq0 cycles3 rC5 evalPredictMl rfl

/-- Sorting is a permutation of its input. -/
theorem sortByStart_perm (l : List CycleRecord) : List.Perm (sortByStart l) l :=
  List.perm_insertionSort startLe l

/-- Sorting produces a list ordered by start date. -/
theorem sortByStart_sorted (l : List CycleRecord) : List.Sorted startLe (sortByStart l) :=
  List.sorted_insertionSort startLe l

/-- A list sorted by start date whose start dates are distinct is strictly
sorted. -/
theorem sorted_startLt_of_nodup (l : List CycleRecord)
    (hs : List.Sorted startLe l) (hn : (l.map CycleRecord.start_date).Nodup) :
    List.Sorted startLt l := by
  have hne : l.Pairwise (fun a b => a.start_date ≠ b.start_date) := List.pairwise_map.mp hn
  exact (hs.and hne).imp fun h => lt_of_le_of_ne h.1 h.2

/-- With distinct start dates, sorting is permutation-invariant: any two
permutations of a history sort to the same list. -/
theorem sortByStart_eq_of_perm (l1 l2 : List CycleRecord) (h : List.Perm l1 l2)
    (hn : (l1.map CycleRecord.start_date).Nodup) :
    sortByStart l1 = sortByStart l2 := by
  have p : List.Perm (sortByStart l1) (sortByStart l2) :=
    (sortByStart_perm l1).trans (h.trans (sortByStart_perm l2).symm)
  have hn1 : ((sortByStart l1).map CycleRecord.start_date).Nodup :=
    (((sortByStart_perm l1).map CycleRecord.start_date).nodup_iff).mpr hn
  have hn2 : ((sortByStart l2).map CycleRecord.start_date).Nodup :=
    (((sortByStart_perm l2).map CycleRecord.start_date).nodup_iff).mpr
      (((h.map CycleRecord.start_date).nodup_iff).mp hn)
  exact List.eq_of_perm_of_sorted p
    (sorted_startLt_of_nodup _ (sortByStart_sorted l1) hn1)
    (sorted_startLt_of_nodup _ (sortByStart_sorted l2) hn2)

/-- Python `max(..., key=f)` returns an element of its input. -/
theorem pyMaxBy_mem (f : CycleRecord → Int) :
    ∀ (l : List CycleRecord) (b : CycleRecord), pyMaxBy f b l ∈ b :: l := by
  intro l
  induction l with
  | nil =>
    intro b
    simp [pyMaxBy]
  | cons x xs ih =>
    intro b
    by_cases hc : f b < f x
    · simp only [pyMaxBy, if_pos hc]
      rcases List.mem_cons.mp (ih x) with hm | hm
      · rw [hm]
        exact List.mem_cons_of_mem b (List.mem_cons_self x xs)
      · exact List.mem_cons_of_mem b (List.mem_cons_of_mem x hm)
    · simp only [pyMaxBy, if_neg hc]
      rcases List.mem_cons.mp (ih b) with hm | hm
      · rw [hm]
        exact List.mem_cons_self b (x :: xs)
      · exact List.mem_cons_of_mem b (List.mem_cons_of_mem x hm)

/-- Python `max(..., key=f)` returns an element with maximal key. -/
theorem pyMaxBy_le (f : CycleRecord → Int) :
    ∀ (l : List CycleRecord) (b x : CycleRecord), x ∈ b :: l →
      f x ≤ f (pyMaxBy f b l) := by
  intro l
  induction l with
  | nil =>
    intro b x hx
    rw [List.mem_singleton] at hx
    rw [hx, pyMaxBy]
  | cons y ys ih =>
    intro b x hx
    by_cases hc : f b < f y
    · simp only [pyMaxBy, if_pos hc]
      rcases List.mem_cons.mp hx with h1 | hx2
      · rw [h1]
        exact le_trans (le_of_lt hc) (ih y y (List.mem_cons_self y ys))
      · rcases List.mem_cons.mp hx2 with h2 | h3
        · rw [h2]
          exact ih y y (List.mem_cons_self y ys)
        · exact ih y x (List.mem_cons_of_mem y h3)
    · simp only [pyMaxBy, if_neg hc]
      rcases List.mem_cons.mp hx with h1 | hx2
      · rw [h1]
        exact ih b b (List.mem_cons_self b ys)
      · rcases List.mem_cons.mp hx2 with h2 | h3
        · rw [h2]
          exact le_trans (not_lt.mp hc) (ih b b (List.mem_cons_self b ys))
        · exact ih b x (List.mem_cons_of_mem b h3)

/-- With distinct keys, Python `max(..., key=f)` is permutation-invariant. -/
theorem pyMaxBy_eq_of_perm (f : CycleRecord → Int) (c1 : CycleRecord) (t1 : List CycleRecord)
    (c2 : CycleRecord) (t2 : List CycleRecord) (h : List.Perm (c1 :: t1) (c2 :: t2))
    (hn : ((c1 :: t1).map f).Nodup) :
    pyMaxBy f c1 t1 = pyMaxBy f c2 t2 := by
  have m1 : pyMaxBy f c1 t1 ∈ c1 :: t1 := pyMaxBy_mem f t1 c1
  have m2 : pyMaxBy f c2 t2 ∈ c2 :: t2 := pyMaxBy_mem f t2 c2
  have m2' : pyMaxBy f c2 t2 ∈ c1 :: t1 := h.mem_iff.mpr m2
  have m1' : pyMaxBy f c1 t1 ∈ c2 :: t2 := h.mem_iff.mp m1
  have le1 : f (pyMaxBy f c2 t2) ≤ f (pyMaxBy f c1 t1) := pyMaxBy_le f t1 c1 _ m2'
  have le2 : f (pyMaxBy f c1 t1) ≤ f (pyMaxBy f c2 t2) := pyMaxBy_le f t2 c2 _ m1'
  exact List.inj_on_of_nodup_map hn m1 m2' (le_antisymm le2 le1)

/-- The average fallback is permutation-invariant on histories with distinct
start dates (it sorts internally and takes the key-maximum of the input). -/
theorem getFallbackPrediction_perm (today : Int) (l1 l2 : List CycleRecord)
    (h : List.Perm l1 l2) (hn : (l1.map CycleRecord.start_date).Nodup) :
    getFallbackPrediction today (some l1) = getFallbackPrediction today (some l2) := by
  cases l1 with
  | nil =>
    have h2 : l2 = [] := h.symm.eq_nil
    rw [h2]
  | cons c1 t1 =>
    cases l2 with
    | nil => exact absurd h.eq_nil (by simp)
    | cons c2 t2 =>
      have hs := sortByStart_eq_of_perm _ _ h hn
      have hm := pyMaxBy_eq_of_perm CycleRecord.start_date c1 t1 c2 t2 h hn
      simp only [getFallbackPrediction]
      rw [hs, hm]

/-- `preprocess_data` is permutation-invariant on histories with distinct
start dates (it sorts by start date before any computation). -/
theorem preprocessData_perm (sq : ℚ → ℚ) (l1 l2 : List CycleRecord)
    (h : List.Perm l1 l2) (hn : (l1.map CycleRecord.start_date).Nodup) :
    preprocessData sq l1 = preprocessData sq l2 := by
  simp only [preprocessData]
  rw [h.length_eq, sortByStart_eq_of_perm _ _ h hn]

/-- The engine body of `predict` (Gemini disabled) is permutation-invariant
on histories with distinct start dates. -/
theorem predictBody_perm (today : Int)
    (gemini : List CycleRecord → Except PyErr GeminiOutcome)
    (model : Option (List ℚ → Except PyErr ℚ))
    (scaler : Option (List ℚ → Except PyErr (List ℚ)))
    (sq : ℚ → ℚ) (l1 l2 : List CycleRecord)
    (h : List.Perm l1 l2) (hn : (l1.map CycleRecord.start_date).Nodup) :
    predictBody today false gemini model scaler sq l1
      = predictBody today false gemini model scaler sq l2 := by
  simp only [predictBody, Bool.false_eq_true, if_false]
  rw [sortByStart_eq_of_perm _ _ h hn, getFallbackPrediction_perm today _ _ h hn]

/-- `predict` (Gemini disabled) is permutation-invariant on histories with
distinct start dates. -/
theorem predict_perm (today : Int)
    (gemini : List CycleRecord → Except PyErr GeminiOutcome)
    (model : Option (List ℚ → Except PyErr ℚ))
    (scaler : Option (List ℚ → Except PyErr (List ℚ)))
    (sq : ℚ → ℚ) (l1 l2 : List CycleRecord)
    (h : List.Perm l1 l2) (hn : (l1.map CycleRecord.start_date).Nodup) :
    predict today false gemini model scaler sq l1
      = predict today false gemini model scaler sq l2 := by
  cases l1 with
  | nil =>
    have h2 : l2 = [] := h.symm.eq_nil
    rw [h2]
  | cons c1 t1 =>
    cases l2 with
    | nil => exact absurd h.eq_nil (by simp)
    | cons c2 t2 =>
      unfold predict
      rw [if_neg (by simp), if_neg (by simp)]
      rw [predictBody_perm today gemini model scaler sq _ _ h hn]
      rw [getFallbackPrediction_perm today _ _ h hn]

/-- `train` is permutation-invariant on histories with distinct start dates.
(Everything after `preprocess_data` is a deterministic function of its
output.) -/
theorem trainBackend_perm
    (fit : List (List ℚ) → List ℚ → Except PyErr BackendTrainEval)
    (save : Except PyErr Unit) (saveFlag : Bool) (sq : ℚ → ℚ)
    (l1 l2 : List CycleRecord)
    (h : List.Perm l1 l2) (hn : (l1.map CycleRecord.start_date).Nodup) :
    trainBackend fit save saveFlag sq l1 = trainBackend fit save saveFlag sq l2 := by
  simp only [trainBackend]
  rw [h.length_eq, preprocessData_perm sq _ _ h hn]

/-- C9: for every valid history with distinct start dates and every
permutation of it, `predict` (with the out-of-scope Gemini collaborator
disabled) and `train` return identical results, because the history is
sorted by start date before any computation. -/
theorem C9_sort_invariance :
    ∀ (l1 l2 : List CycleRecord), List.Perm l1 l2 →
      (l1.map CycleRecord.start_date).Nodup →
      ∀ (today : Int) (gemini : List CycleRecord → Except PyErr GeminiOutcome)
        (model : Option (List ℚ → Except PyErr ℚ))
        (scaler : Option (List ℚ → Except PyErr (List ℚ)))
        (sq : ℚ → ℚ)
        (fit : List (List ℚ) → List ℚ → Except PyErr BackendTrainEval)
        (save : Except PyErr Unit) (saveFlag : Bool),
        predict today false gemini model scaler sq l1
          = predict today false gemini model scaler sq l2
        ∧ trainBackend fit save saveFlag sq l1 = trainBackend fit save saveFlag sq l2 :=
  fun l1 l2 h hn today gemini model scaler sq fit save saveFlag =>
    ⟨predict_perm today gemini model scaler sq l1 l2 h hn,
     trainBackend_perm fit save saveFlag sq l1 l2 h hn⟩

/-- Witness for C9: swapping a concrete two-record history changes neither
the prediction nor the training result. -/
theorem C9_sort_invariance_witness :
    predict 0 false g0 none none sq0 [mkRec 10, mkRec 40]
      = predict 0 false g0 none none sq0 [mkRec 40, mkRec 10]
    ∧ trainBackend bfit0 (.ok ()) true sq0 [mkRec 10, mkRec 40]
      = trainBackend bfit0 (.ok ()) true sq0 [mkRec 40, mkRec 10] :=
  C9_sort_invariance [mkRec 10, mkRec 40] [mkRec 40, mkRec 10]
    (List.Perm.swap (mkRec 40) (mkRec 10) []) (by decide)
    0 g0 none none sq0 bfit0 (.ok ()) true
